import Mathlib

/-!
Verification development for the event-discovery and connection-resilience
core of the solana-moon-scanner repository: a shallow embedding in Lean 4 of

  * `src/core/dex_monitor.py`  (TokenPair, DEXMonitor),
  * `src/core/websocket_manager.py`  (WebSocketManager),
  * `src/core/rpc_client.py`  (RPCClient with tenacity retry),

together with theorems settling the behavioural claims about deduplicated
pair discovery, age filtering, cleanup, observer isolation, subscription
management, reconnect backoff, and retry/failover.

Modelling conventions:
  * wall-clock instants (`datetime.now()`, `blockTime`) are `Int` seconds;
    derived ages are `ℚ` minutes, mirroring `total_seconds() / 60`;
  * network sends (WebSocket `send`, RPC transport) are abstracted: a request
    body is not modelled, but per-attempt outcomes and per-event transport
    failures are inputs to the model;
  * Python `dict`s are association lists in insertion order (keys are unique
    in every reachable state; the `storeInv`/`wsInv` predicates record this);
  * an async callback is a function into `Except String Unit`: `.error` models
    the callback raising, caught by the caller's `try/except`.
-/

namespace MoonScanner

/-! ## String helpers (Python `in` on lowercased strings) -/

/-- Membership of `pat` as a contiguous sublist of `l`, as a Bool. -/
def charsInfix (pat : List Char) : List Char → Bool
  | [] => pat.isEmpty
  | c :: rest =>
      (pat.isPrefixOf (c :: rest)) || charsInfix pat rest

/-- Python `pat in s`: substring containment. -/
def strContains (s pat : String) : Bool :=
  charsInfix pat.toList s.toList

/-! ## Configuration (`src/utils/config.py`, the fields the core reads) -/

/-- Fields of the scanner configuration consumed by the monitored core:
`max_token_age_minutes` (default 60), `scan_interval_seconds` (default 10),
`enable_websocket`, and the parsed `monitored_dexs` list. -/
structure Config where
  max_token_age_minutes : Nat := 60
  scan_interval_seconds : Nat := 10
  enable_websocket : Bool := true
  monitored_dexs : List String := ["raydium", "orca", "jupiter"]
deriving Repr

/-! ## TokenPair (`src/core/dex_monitor.py` lines 25-66) -/

/-- A discovered DEX token pair (`@dataclass TokenPair`).  `created_at` is an
epoch timestamp in seconds; `pool_info` is the opaque key-value map, default
empty. -/
structure TokenPair where
  token_address : String
  pair_address : String
  dex : String
  base_token : String
  quote_token : String
  created_at : Int
  signature : String
  pool_info : List (String × String) := []
deriving Repr, DecidableEq

/-- Model of `TokenPair.age_minutes`: `(datetime.now() - created_at).total_seconds() / 60`. -/
def age_minutes (now : Int) (created_at : Int) : ℚ :=
  ((now - created_at : Int) : ℚ) / 60

/-- Model of `TokenPair.is_eligible`: age (in minutes) at most `max_age_minutes`. -/
def is_eligible (p : TokenPair) (now : Int) (max_age_minutes : Nat) : Bool :=
  decide (age_minutes now p.created_at ≤ (max_age_minutes : ℚ))

/-! ## Known DEX program ids and account helpers -/

/-- Model of `DEX_PROGRAM_IDS`, in source order. -/
def DEX_PROGRAM_IDS : List (String × String) :=
  [("raydium", "675kPX9MHTjS2zt1qfr1NYHuzeLXfQM9H24wFSUt1Mp8"),
   ("raydium_v3", "CAMMCzo5YL8w4VFF8KVHrK22GGUsp5VTaW7grrKgrWqK"),
   ("orca", "whirLbMiicVdio4qvUfM5KAg6Ct8VwpYzGff3uctyCc"),
   ("orca_v2", "9W959DqEETiGZocYWCQPaJ6sBmUzgfxXfqGeTEdp3aQP"),
   ("jupiter", "JUP6LkbZbjS1jKKwapdHNy74zcZ3tLUZoi5QNyVTaV4")]

/-- Model of `DEXMonitor._get_dex_name`: name lookup with the version suffix removed. -/
def get_dex_name (program_id : String) : String :=
  match DEX_PROGRAM_IDS.find? (fun kv => kv.2 == program_id) with
  | some kv => (kv.1.splitOn "_").headD ""
  | none => "unknown"

/-- Model of `DEXMonitor._is_system_account`. -/
def is_system_account (pubkey : String) : Bool :=
  pubkey ∈ ["11111111111111111111111111111111",
            "TokenkegQfeZyiNwAJbNbGKPFXCWuBvf9Ss623VQ5DA",
            "ATokenGPvbdGVxr1b2hvZbsiqW5xWH25efTNsLJA8knL"]

/-! ## Transaction data (`jsonParsed` transactions as the monitor reads them) -/

/-- One entry of `transaction.message.accountKeys`: either a plain string or a
dict carrying a `pubkey` field (both occur in `jsonParsed` payloads). -/
inductive AccountKey
  | str (s : String)
  | obj (pubkey : String)
deriving Repr, DecidableEq

/-- The pubkey the source reads from either representation. -/
def AccountKey.pubkeyOf : AccountKey → String
  | .str s => s
  | .obj p => p

/-- One entry of `transaction.message.instructions`: the monitor reads
`programId` and `parsed.type`. -/
structure Instruction where
  programId : String
  parsedType : String
deriving Repr, DecidableEq

/-- The transaction fields `_parse_transaction` consumes: `meta.err` truthiness,
`blockTime` (absent or an epoch second), instructions, account keys. -/
structure TxData where
  metaErr : Bool
  blockTime : Option Int
  instructions : List Instruction
  accountKeys : List AccountKey
deriving Repr, DecidableEq

/-- Model of `DEXMonitor._is_pool_creation_instruction`: the instruction's `programId`
must equal the scanned program id and its lowercased `parsed.type` must contain
`"initialize"` or `"create"` as a substring. -/
def is_pool_creation_instruction (instruction : Instruction) (program_id : String) : Bool :=
  instruction.programId == program_id &&
    (strContains instruction.parsedType.toLower "initialize" ||
     strContains instruction.parsedType.toLower "create")

/-- Model of `DEXMonitor._extract_pair_info`: heuristic pair extraction from the first
ten account keys, excluding short pubkeys and known system accounts.  The
instruction argument is received but (as in the source) not inspected. -/
def extract_pair_info (_instruction : Instruction) (tx_data : TxData)
    (program_id : String) (signature : String) (created_at : Int) :
    Option TokenPair :=
  let accounts := tx_data.accountKeys
  if accounts.length < 3 then none
  else
    let dex_name := get_dex_name program_id
    let token_mints :=
      ((accounts.take 10).map AccountKey.pubkeyOf).filter
        (fun pubkey => pubkey ≠ "" && pubkey.length > 30 && !is_system_account pubkey)
    if token_mints.length < 2 then none
    else
      some { token_address := token_mints.headD ""
             pair_address := (accounts.headD (.str "")).pubkeyOf
             dex := dex_name
             base_token := token_mints.headD ""
             quote_token := (token_mints.drop 1).headD "SOL"
             created_at := created_at
             signature := signature }

/-- Model of `DEXMonitor._parse_transaction`: reject failed transactions, derive the
creation instant from `blockTime` (Python falsiness: a missing or zero
`blockTime` means "use now"), reject transactions older than the configured
maximum age, then return the first pool-creation instruction's extracted pair. -/
def parse_transaction (tx_data : TxData) (program_id : String) (signature : String)
    (now : Int) (max_token_age_minutes : Nat) : Option TokenPair :=
  if tx_data.metaErr then none
  else
    let created_at : Int :=
      match tx_data.blockTime with
      | none => now
      | some t => if t = 0 then now else t
    if age_minutes now created_at > (max_token_age_minutes : ℚ) then none
    else
      tx_data.instructions.findSome? (fun instruction =>
        if is_pool_creation_instruction instruction program_id then
          extract_pair_info instruction tx_data program_id signature created_at
        else none)

/-! ## DEXMonitor state and the shared discovery pipeline -/

/-- A registered new-pair callback; `.error` models the coroutine raising. -/
def Callback : Type := TokenPair → Except String Unit

/-- The mutable monitor state the discovery pipeline touches:
`discovered_pairs` (dict keyed on token address, insertion order) and
`seen_signatures`. -/
structure MonState where
  discovered_pairs : List (String × TokenPair)
  seen_signatures : List String
deriving Repr

/-- Keys of an association list. -/
def keysOf {β : Type _} (l : List (String × β)) : List String :=
  l.map Prod.fst

/-- The observer fan-out loop of `_handle_new_pair`: each callback is awaited
inside its own `try/except`, so both outcomes record an entry and continue with
the remaining callbacks. -/
def notifyCallbacks : List Callback → TokenPair → List (Except String Unit)
  | [], _ => []
  | cb :: rest, pair =>
    match cb pair with
    | .ok u => .ok u :: notifyCallbacks rest pair
    | .error e => .error e :: notifyCallbacks rest pair

/-- Model of `DEXMonitor._handle_new_pair`: drop the pair if its token address is
already a key of the store; otherwise insert it and notify every callback.
Returns the new state and the list of observer invocation results (empty when
the pair was dropped). -/
def handle_new_pair (st : MonState) (pair : TokenPair) (callbacks : List Callback) :
    MonState × List (Except String Unit) :=
  if pair.token_address ∈ keysOf st.discovered_pairs then (st, [])
  else
    ({ st with discovered_pairs := st.discovered_pairs ++ [(pair.token_address, pair)] },
     notifyCallbacks callbacks pair)

/-- The per-signature body of `DEXMonitor._scan_program` (polling path):
skip seen signatures, record the signature, fetch the transaction (`fetch`
returns `none` when the RPC reply is missing or has no `result`), parse it
against the scanned program, and hand any recognized pair to
`_handle_new_pair`. -/
def process_signature (st : MonState) (fetch : String → Option TxData)
    (program_id : String) (now : Int) (max_token_age_minutes : Nat)
    (callbacks : List Callback) (signature : String) :
    MonState × List (Except String Unit) :=
  if signature ∈ st.seen_signatures then (st, [])
  else
    let st := { st with seen_signatures := signature :: st.seen_signatures }
    match fetch signature with
    | none => (st, [])
    | some tx =>
      match parse_transaction tx program_id signature now max_token_age_minutes with
      | some pair => handle_new_pair st pair callbacks
      | none => (st, [])

/-- Model of `DEXMonitor._scan_program`'s loop over the fetched signature list,
accumulating observer invocation results. -/
def scan_program (st : MonState) (fetch : String → Option TxData)
    (program_id : String) (now : Int) (max_token_age_minutes : Nat)
    (callbacks : List Callback) (signatures : List String) :
    MonState × List (Except String Unit) :=
  signatures.foldl
    (fun acc signature =>
      let (st', evs) :=
        process_signature acc.1 fetch program_id now max_token_age_minutes callbacks signature
      (st', acc.2 ++ evs))
    (st, [])

/-- A WebSocket log event as `_handle_log_event` reads it: an optional
top-level `signature`. -/
structure LogEvent where
  signature : Option String
deriving Repr, DecidableEq

/-- Model of `DEXMonitor._handle_log_event` (push path): skip events with no signature
or an already-seen signature, record the signature, fetch the transaction, try
each monitored program id in order and handle only the first recognized pair
(the source `break`s after the first match). -/
def handle_log_event (st : MonState) (fetch : String → Option TxData)
    (program_ids : List String) (now : Int) (max_token_age_minutes : Nat)
    (callbacks : List Callback) (event : LogEvent) :
    MonState × List (Except String Unit) :=
  match event.signature with
  | none => (st, [])
  | some signature =>
    if signature ∈ st.seen_signatures then (st, [])
    else
      let st := { st with seen_signatures := signature :: st.seen_signatures }
      match fetch signature with
      | none => (st, [])
      | some tx =>
        match program_ids.findSome?
            (fun pid => parse_transaction tx pid signature now max_token_age_minutes) with
        | some pair => handle_new_pair st pair callbacks
        | none => (st, [])

/-- Model of `DEXMonitor.get_active_pairs`: the stored pairs that are still eligible,
gathered into a new list. -/
def get_active_pairs (st : MonState) (now : Int) (max_token_age_minutes : Nat) :
    List TokenPair :=
  (st.discovered_pairs.map Prod.snd).filter (fun p => is_eligible p now max_token_age_minutes)

/-- One sweep of `DEXMonitor._cleanup_old_pairs`: compute the cutoff
`now - timedelta(minutes=max_token_age_minutes * 2)`, collect the keys of pairs
created strictly before it, and delete those keys from the store. -/
def cleanup_old_pairs (st : MonState) (now : Int) (max_token_age_minutes : Nat) : MonState :=
  let cutoff : Int := now - ((max_token_age_minutes * 2 : Nat) : Int) * 60
  let old_pairs :=
    keysOf (st.discovered_pairs.filter (fun kp => decide (kp.2.created_at < cutoff)))
  { st with discovered_pairs :=
      st.discovered_pairs.filter (fun kp => decide (kp.1 ∉ old_pairs)) }

/-- Store invariant maintained by the monitor: the dict's keys are unique and
each stored pair is keyed by its own token address. -/
def storeInv (st : MonState) : Prop :=
  (keysOf st.discovered_pairs).Nodup ∧
  ∀ kp ∈ st.discovered_pairs, kp.2.token_address = kp.1

/-! ## DEXMonitor start (`src/core/dex_monitor.py` lines 104-124) -/

/-- The three long-running activities `start()` can launch. -/
inductive TaskName
  | websocketMonitoring
  | pollingMonitoring
  | cleanupTask
deriving Repr, DecidableEq

/-- The monitor-level state read and written by `start()`. -/
structure DEXMonitorState where
  store : MonState
  callbacks : List Callback
  running : Bool

/-- Model of `DEXMonitor.start`: if already running, log a warning and return without
launching anything; otherwise set `running`, launch WebSocket monitoring when
enabled, and launch the polling and cleanup tasks. -/
def DEXMonitor.start (config : Config) (st : DEXMonitorState) :
    DEXMonitorState × List TaskName :=
  if st.running then (st, [])
  else
    ({ st with running := true },
     (if config.enable_websocket then [TaskName.websocketMonitoring] else []) ++
       [TaskName.pollingMonitoring, TaskName.cleanupTask])

/-! ## Snapshot aliasing model of `get_active_pairs` (reference semantics)

Python lists hold references: the list comprehension in `get_active_pairs`
builds a new list whose elements are the very `TokenPair` objects stored in
`self.discovered_pairs`.  To reason about aliasing we refine the store to hold
references (addresses) into an explicit heap of `TokenPair` objects. -/

/-- A heap of `TokenPair` objects, addressed by `Nat`. -/
def Heap : Type := List (Nat × TokenPair)

/-- Heap dereference. -/
def heapGet (h : Heap) (r : Nat) : Option TokenPair :=
  match h.find? (fun kv => kv.1 == r) with
  | some kv => some kv.2
  | none => none

/-- In-place mutation of the object at address `r` (e.g. assigning into its
`pool_info` map). -/
def heapSet (h : Heap) (r : Nat) (p : TokenPair) : Heap :=
  h.map (fun kv => if kv.1 == r then (kv.1, p) else kv)

/-- The pair store under reference semantics: token address to heap address. -/
structure RefStore where
  entries : List (String × Nat)
deriving Repr, DecidableEq

/-- Model of `DEXMonitor.get_active_pairs` under reference semantics: a fresh list is
built, but its elements are the store's own object references, filtered by
eligibility of the referenced object. -/
def get_active_pairs_refs (h : Heap) (store : RefStore) (now : Int)
    (max_token_age_minutes : Nat) : List Nat :=
  store.entries.filterMap (fun kv =>
    match heapGet h kv.2 with
    | some p => if is_eligible p now max_token_age_minutes then some kv.2 else none
    | none => none)

/-! ## WebSocketManager (`src/core/websocket_manager.py`) -/

/-- A registered subscription entry: the source stores the subscription type,
its filter (program id list, or single account address) and the callback (here
a handler identifier). -/
inductive SubEntry
  | logs (program_ids : List String) (callback : Nat)
  | account (address : String) (callback : Nat)
deriving Repr, DecidableEq

/-- The WebSocketManager state the claims concern: the subscription table, the
callback table, the id counter, and the reconnect attempt counter.  The live
connection handle is abstracted (sends are effect-free in the model). -/
structure WSState where
  subscriptions : List (Nat × SubEntry)
  callbacks : List (Nat × Nat)
  subscription_id_counter : Nat
  reconnect_attempts : Nat
deriving Repr, DecidableEq

/-- Keys of a Nat-keyed association list. -/
def natKeys {β : Type _} (l : List (Nat × β)) : List Nat :=
  l.map Prod.fst

/-- Model of `WebSocketManager.__init__`: empty tables, counter 0, no reconnect
attempts recorded. -/
def WSState.init : WSState :=
  { subscriptions := [], callbacks := [], subscription_id_counter := 0,
    reconnect_attempts := 0 }

/-- Model of `WebSocketManager.subscribe_logs`: consume the current counter as the new
subscription id, send one `logsSubscribe` request per program id (abstracted),
and record the registration in both tables.  Returns the id and the new
state. -/
def subscribe_logs (st : WSState) (program_ids : List String) (callback : Nat) :
    Nat × WSState :=
  let subscription_id := st.subscription_id_counter
  (subscription_id,
   { st with
      subscription_id_counter := st.subscription_id_counter + 1,
      subscriptions := st.subscriptions ++ [(subscription_id, .logs program_ids callback)],
      callbacks := st.callbacks ++ [(subscription_id, callback)] })

/-- Model of `WebSocketManager.subscribe_account`: same id assignment for an account
subscription. -/
def subscribe_account (st : WSState) (address : String) (callback : Nat) :
    Nat × WSState :=
  let subscription_id := st.subscription_id_counter
  (subscription_id,
   { st with
      subscription_id_counter := st.subscription_id_counter + 1,
      subscriptions := st.subscriptions ++ [(subscription_id, .account address callback)],
      callbacks := st.callbacks ++ [(subscription_id, callback)] })

/-- Deleting a key from a dict modelled as an association list with unique
keys. -/
def delKey {β : Type _} (l : List (Nat × β)) (k : Nat) : List (Nat × β) :=
  l.filter (fun kv => decide (kv.1 ≠ k))

/-- Model of `WebSocketManager.unsubscribe`: when the id is unknown, log a warning and
return with no state change; otherwise choose the unsubscribe method from the
entry's type (every representable entry is `logs` or `account`), best-effort
send it, and delete the id from both tables. -/
def unsubscribe (st : WSState) (subscription_id : Nat) : WSState :=
  match st.subscriptions.find? (fun kv => kv.1 == subscription_id) with
  | none => st
  | some _ =>
    { st with
        subscriptions := delKey st.subscriptions subscription_id,
        callbacks := delKey st.callbacks subscription_id }

/-- Re-submission of one copied subscription entry through the public
subscribe operation matching its type (the loop body of `_resubscribe_all`). -/
def resubscribe_step (acc : WSState) (kv : Nat × SubEntry) : WSState :=
  match kv.2 with
  | .logs program_ids callback => (subscribe_logs acc program_ids callback).2
  | .account address callback => (subscribe_account acc address callback).2

/-- Model of `WebSocketManager._resubscribe_all`: snapshot the table, clear both
tables, and re-submit every entry in insertion order through the public
subscribe operations (fresh ids are issued from the still-running counter). -/
def resubscribe_all (st : WSState) : WSState :=
  let copied := st.subscriptions
  let cleared := { st with subscriptions := [], callbacks := [] }
  copied.foldl resubscribe_step cleared

/-- Model of `_max_reconnect_attempts` from `__init__`. -/
def max_reconnect_attempts : Nat := 10

/-- Outcome of one call to `WebSocketManager.connect()` as the listen loop
sees it: `ok` (connection established, attempt counter reset), `noop` (the
guard clauses returned without connecting: no WSS URL or WebSocket disabled),
or `raiseErr` (the connection attempt raised). -/
inductive ConnectOutcome
  | ok
  | noop
  | raiseErr
deriving Repr, DecidableEq

/-- One iteration's input to the listen loop: a received message, a receive
timeout (answered with a ping), or a transport failure
(`WebSocketException`) whose subsequent reconnect attempt has the given
outcome. -/
inductive WsEvent
  | message
  | timeout
  | wsError (c : ConnectOutcome)
deriving Repr, DecidableEq

/-- Observable actions of the listen loop. -/
inductive TraceItem
  | dispatched
  | ping
  | sleep (duration : Nat)
  | resubscribed (entries : List SubEntry)
deriving Repr, DecidableEq

/-- How the listen loop ended: `stopped` (loop exited with `running` false or
the modelled event stream was exhausted), `maxAttemptsReached` (the
"Max reconnection attempts reached" error was logged and the loop `break`s),
or `fatalError` (an exception escaped to the outer handler and is re-raised). -/
inductive ListenResult
  | stopped
  | maxAttemptsReached
  | fatalError
deriving Repr, DecidableEq

/-- Model of `WebSocketManager.listen`: the receive loop over a finite stream of
events.  A message is dispatched; a timeout triggers a keepalive ping; a
`WebSocketException` enters the reconnect logic: while fewer than
`max_reconnect_attempts` attempts are outstanding, increment the attempt
counter, sleep `2 ** attempts` time-units, reconnect (a successful `connect`
resets the attempt counter) and re-establish all subscriptions; once the
budget is exhausted the loop logs the fatal condition and terminates. -/
def listen (st : WSState) : List WsEvent → ListenResult × WSState × List TraceItem
  | [] => (.stopped, st, [])
  | .message :: rest =>
    let (res, st', tr) := listen st rest
    (res, st', .dispatched :: tr)
  | .timeout :: rest =>
    let (res, st', tr) := listen st rest
    (res, st', .ping :: tr)
  | .wsError c :: rest =>
    if st.reconnect_attempts < max_reconnect_attempts then
      let st1 := { st with reconnect_attempts := st.reconnect_attempts + 1 }
      let backoff := 2 ^ st1.reconnect_attempts
      match c with
      | .raiseErr => (.fatalError, st1, [.sleep backoff])
      | .ok =>
        let st2 := { st1 with reconnect_attempts := 0 }
        let st3 := resubscribe_all st2
        let (res, st', tr) := listen st3 rest
        (res, st', .sleep backoff :: .resubscribed (st2.subscriptions.map Prod.snd) :: tr)
      | .noop =>
        let st2 := resubscribe_all st1
        let (res, st', tr) := listen st2 rest
        (res, st', .sleep backoff :: .resubscribed (st1.subscriptions.map Prod.snd) :: tr)
    else (.maxAttemptsReached, st, [])

/-- The sleep durations recorded in a trace. -/
def sleepsOf : List TraceItem → List Nat
  | [] => []
  | .sleep d :: rest => d :: sleepsOf rest
  | _ :: rest => sleepsOf rest

/-- Table invariant of the WebSocketManager: every issued id is below the
counter, keys are unique, and both tables register the same ids. -/
def wsInv (st : WSState) : Prop :=
  (∀ id ∈ natKeys st.subscriptions, id < st.subscription_id_counter) ∧
  (natKeys st.subscriptions).Nodup ∧
  natKeys st.callbacks = natKeys st.subscriptions

/-! ## RPCClient (`src/core/rpc_client.py`) -/

/-- Outcome of one attempt against an endpoint: a successful response, a
retryable network/timeout error (`aiohttp.ClientError`, `asyncio.TimeoutError`),
or a non-retryable application error (any other exception). -/
inductive AttemptResult
  | ok (v : Nat)
  | netErr (e : Nat)
  | appErr (e : Nat)
deriving Repr, DecidableEq

/-- The error a `_make_request` call surfaces: tenacity's `RetryError` wrapping
the last retryable failure once the attempt budget is spent, or the original
non-retryable exception re-raised immediately. -/
inductive ReqErr
  | retryExhausted (e : Nat)
  | nonRetryable (e : Nat)
deriving Repr, DecidableEq

/-- Attempts and sleeps of one `_make_request` call. -/
structure CallTrace where
  attempts : Nat
  sleeps : List Nat
deriving Repr, DecidableEq

/-- Model of `stop_after_attempt(3)` from the `@retry` decorator. -/
def stop_after_attempt_n : Nat := 3

/-- Model of `wait_exponential(multiplier=1, min=2, max=10)`: after the n-th failed
attempt wait `clamp(1 * 2 ** n, 2, 10)` time-units. -/
def wait_exponential (attempt_number : Nat) : Nat :=
  max 2 (min (2 ^ attempt_number) 10)

/-- Attempt loop of the tenacity-decorated `_make_request`: `behavior n` is the
outcome of the n-th attempt (1-based).  A success returns; a non-retryable
error re-raises immediately; a retryable error either exhausts the remaining
budget or sleeps the exponential backoff and retries. -/
def make_request_go (behavior : Nat → AttemptResult) :
    Nat → Nat → Except ReqErr Nat × CallTrace
  | fuel, attempt =>
    match behavior attempt with
    | .ok v => (.ok v, ⟨attempt, []⟩)
    | .appErr e => (.error (.nonRetryable e), ⟨attempt, []⟩)
    | .netErr e =>
      match fuel with
      | 0 => (.error (.retryExhausted e), ⟨attempt, []⟩)
      | fuel' + 1 =>
        let (r, tr) := make_request_go behavior fuel' (attempt + 1)
        (r, ⟨tr.attempts, wait_exponential attempt :: tr.sleeps⟩)

/-- Model of `RPCClient._make_request` against one endpoint: up to
`stop_after_attempt_n` attempts starting at attempt 1. -/
def make_request (behavior : Nat → AttemptResult) : Except ReqErr Nat × CallTrace :=
  make_request_go behavior (stop_after_attempt_n - 1) 1

/-- Which endpoints a `get_token_supply` call exercised. -/
structure SupplyTrace where
  primaryTrace : CallTrace
  backupAttempted : Bool
  backupTrace : CallTrace
deriving Repr, DecidableEq

/-- Model of `RPCClient.get_token_supply`: call `_make_request` against the primary; on
any exception, if a backup client is configured re-issue the call against the
backup through the same `_make_request` (whose own result, success or error,
is what the caller sees); with no backup, re-raise the primary's error. -/
def get_token_supply (primary : Nat → AttemptResult)
    (backup : Option (Nat → AttemptResult)) : Except ReqErr Nat × SupplyTrace :=
  let (r1, t1) := make_request primary
  match r1 with
  | .ok v => (.ok v, ⟨t1, false, ⟨0, []⟩⟩)
  | .error e =>
    match backup with
    | some b =>
      let (r2, t2) := make_request b
      (r2, ⟨t1, true, t2⟩)
    | none => (.error e, ⟨t1, false, ⟨0, []⟩⟩)

/-! ## Supporting lemmas -/

/-- Observer fan-out never aborts: every callback is invoked and its outcome
recorded, exactly as mapping the callbacks over the pair. -/
theorem notifyCallbacks_eq_map (callbacks : List Callback) (pair : TokenPair) :
    notifyCallbacks callbacks pair = callbacks.map (fun cb => cb pair) := by
  induction callbacks with
  | nil => rfl
  | cons cb rest ih =>
    cases h : cb pair with
    | ok u => simp [notifyCallbacks, h, ih]
    | error e => simp [notifyCallbacks, h, ih]

/-- The operation `_handle_new_pair` never touches the seen-signature set. -/
theorem handle_new_pair_seen (st : MonState) (pair : TokenPair)
    (callbacks : List Callback) :
    (handle_new_pair st pair callbacks).1.seen_signatures = st.seen_signatures := by
  unfold handle_new_pair
  split <;> rfl

/-- The empty store satisfies the store invariant. -/
theorem storeInv_empty : storeInv ⟨[], []⟩ := by
  constructor
  · simp [keysOf]
  · intro kp hkp; simp at hkp

/-- The operation `_handle_new_pair` preserves the store invariant. -/
theorem storeInv_handle_new_pair (st : MonState) (pair : TokenPair)
    (callbacks : List Callback) (h : storeInv st) :
    storeInv (handle_new_pair st pair callbacks).1 := by
  unfold handle_new_pair
  split
  · exact h
  · rename_i hmem
    obtain ⟨hnd, hkey⟩ := h
    constructor
    · simp only [keysOf, List.map_append, List.map_cons, List.map_nil]
      rw [List.nodup_append]
      refine ⟨hnd, List.nodup_singleton _, ?_⟩
      intro a ha hb
      simp only [List.mem_singleton] at hb
      subst hb
      exact hmem ha
    · intro kp hkp
      rcases List.mem_append.mp hkp with hl | hr
      · exact hkey kp hl
      · simp only [List.mem_singleton] at hr
        subst hr
        rfl

/-- A cleanup sweep preserves the store invariant. -/
theorem storeInv_cleanup (st : MonState) (now : Int) (max_token_age_minutes : Nat)
    (h : storeInv st) :
    storeInv (cleanup_old_pairs st now max_token_age_minutes) := by
  obtain ⟨hnd, hkey⟩ := h
  constructor
  · exact (List.Sublist.map Prod.fst (List.filter_sublist _)).nodup hnd
  · intro kp hkp
    exact hkey kp (List.mem_of_mem_filter hkp)

/-! ## C10 -/

/-- C10: calling `start()` on a monitor that is already running returns
immediately, launching no monitoring activity and leaving the entire monitor
state (pair store, seen-signature set, callback list, running flag)
unchanged. -/
theorem start_when_running_noop (config : Config) (st : DEXMonitorState)
    (h : st.running = true) :
    DEXMonitor.start config st = (st, []) := by
  simp [DEXMonitor.start, h]

/-- Witness for C10 at a concrete running monitor. -/
theorem start_when_running_noop_witness :
    DEXMonitor.start {} ⟨⟨[], []⟩, [], true⟩ = (⟨⟨[], []⟩, [], true⟩, []) :=
  start_when_running_noop {} ⟨⟨[], []⟩, [], true⟩ rfl

/-! ## C6 -/

/-- C6: observer isolation.  The per-observer `try/except` in
`_handle_new_pair` means the invocation trace is exactly the list of every
registered callback applied to the pair — a callback that raises on every
invocation (an `.error` result) never prevents any later callback from being
invoked — and when the pair is new the store insertion happens regardless of
any callback failure, so discovery of this and of subsequent pairs (the same
statement applied to the successor state) is never aborted. -/
theorem observer_isolation (st : MonState) (pair : TokenPair)
    (callbacks : List Callback) :
    notifyCallbacks callbacks pair = callbacks.map (fun cb => cb pair) ∧
    (pair.token_address ∉ keysOf st.discovered_pairs →
      (handle_new_pair st pair callbacks).2 = callbacks.map (fun cb => cb pair) ∧
      (handle_new_pair st pair callbacks).1.discovered_pairs
        = st.discovered_pairs ++ [(pair.token_address, pair)]) := by
  refine ⟨notifyCallbacks_eq_map callbacks pair, fun hmem => ?_⟩
  constructor
  · simp [handle_new_pair, hmem, notifyCallbacks_eq_map]
  · simp [handle_new_pair, hmem]

/-- A sample discovered pair used by concrete witnesses. -/
def samplePair : TokenPair :=
  { token_address := "TKN1TKN1TKN1TKN1TKN1TKN1TKN1TKN1TKN",
    pair_address := "POOL1",
    dex := "raydium",
    base_token := "TKN1TKN1TKN1TKN1TKN1TKN1TKN1TKN1TKN",
    quote_token := "SOL",
    created_at := 0,
    signature := "sigA" }

/-- Witness for C6: with a first callback that always raises, the second
callback is still invoked and the pair is still stored. -/
theorem observer_isolation_witness :
    notifyCallbacks [fun _ => Except.error "boom", fun _ => Except.ok ()] samplePair
      = [Except.error "boom", Except.ok ()] ∧
    (handle_new_pair ⟨[], []⟩ samplePair
        [fun _ => Except.error "boom", fun _ => Except.ok ()]).1.discovered_pairs
      = [(samplePair.token_address, samplePair)] := by
  have h := observer_isolation ⟨[], []⟩ samplePair
    [fun _ => Except.error "boom", fun _ => Except.ok ()]
  have hmem : samplePair.token_address ∉ keysOf ([] : List (String × TokenPair)) := by
    simp [keysOf]
  exact ⟨h.1, ((h.2 hmem).2.trans (by simp))⟩

/-! ## C8 -/

/-- C8: `unsubscribe` with an unknown id is a logged no-op that changes
nothing; with a registered id it removes exactly that registration from both
the subscription table and the callback table, leaving every other entry (and
the id counter) untouched. -/
theorem unsubscribe_spec (st : WSState) (subscription_id : Nat) :
    (subscription_id ∉ natKeys st.subscriptions →
       unsubscribe st subscription_id = st) ∧
    (subscription_id ∈ natKeys st.subscriptions →
       (∀ kv, kv ∈ (unsubscribe st subscription_id).subscriptions ↔
          kv ∈ st.subscriptions ∧ kv.1 ≠ subscription_id) ∧
       (∀ kv, kv ∈ (unsubscribe st subscription_id).callbacks ↔
          kv ∈ st.callbacks ∧ kv.1 ≠ subscription_id) ∧
       subscription_id ∉ natKeys (unsubscribe st subscription_id).subscriptions ∧
       subscription_id ∉ natKeys (unsubscribe st subscription_id).callbacks ∧
       (unsubscribe st subscription_id).subscription_id_counter
         = st.subscription_id_counter ∧
       (unsubscribe st subscription_id).reconnect_attempts
         = st.reconnect_attempts) := by
  constructor
  · intro hnot
    have hfind : st.subscriptions.find? (fun kv => kv.1 == subscription_id) = none := by
      rw [List.find?_eq_none]
      intro kv hkv hbeq
      exact hnot (List.mem_map.mpr ⟨kv, hkv, by simpa using hbeq⟩)
    simp [unsubscribe, hfind]
  · intro hmem
    obtain ⟨kv0, hkv0, hkey0⟩ := List.mem_map.mp hmem
    have hfind : ∃ kv, st.subscriptions.find? (fun kv => kv.1 == subscription_id) = some kv := by
      rcases hf : st.subscriptions.find? (fun kv => kv.1 == subscription_id) with _ | kv
      · exfalso
        rw [List.find?_eq_none] at hf
        exact absurd (by simp [hkey0]) (hf kv0 hkv0)
      · exact ⟨kv, hf⟩
    obtain ⟨kv, hkv⟩ := hfind
    have hres : unsubscribe st subscription_id =
        { st with subscriptions := delKey st.subscriptions subscription_id,
                  callbacks := delKey st.callbacks subscription_id } := by
      simp [unsubscribe, hkv]
    refine ⟨?_, ?_, ?_, ?_, ?_, ?_⟩
    · intro kv'
      rw [hres]
      simp [delKey, List.mem_filter]
    · intro kv'
      rw [hres]
      simp [delKey, List.mem_filter]
    · rw [hres]
      simp [delKey, natKeys, List.mem_map, List.mem_filter]
    · rw [hres]
      simp [delKey, natKeys, List.mem_map, List.mem_filter]
    · rw [hres]
    · rw [hres]

/-- Witness for C8: unsubscribing id 5 from a one-subscription table is a
no-op, and unsubscribing id 0 removes the registration from both tables. -/
theorem unsubscribe_spec_witness :
    unsubscribe (subscribe_logs WSState.init ["prog"] 0).2 5
      = (subscribe_logs WSState.init ["prog"] 0).2 ∧
    (0 ∉ natKeys (unsubscribe (subscribe_logs WSState.init ["prog"] 0).2 0).subscriptions ∧
     0 ∉ natKeys (unsubscribe (subscribe_logs WSState.init ["prog"] 0).2 0).callbacks) := by
  have h5 := unsubscribe_spec (subscribe_logs WSState.init ["prog"] 0).2 5
  have h0 := unsubscribe_spec (subscribe_logs WSState.init ["prog"] 0).2 0
  refine ⟨h5.1 (by decide), ?_, ?_⟩
  · exact (h0.2 (by decide)).2.2.1
  · exact (h0.2 (by decide)).2.2.2.1

/-! ## C1 -/

/-- C1: idempotent discovery.  After any first processing of a transaction id
via the polling path (`_scan_program` body) or the push path
(`_handle_log_event`), the id is in the seen-signature set; a second
processing of that id via either path is then dropped at the seen-signature
check, changing no state and invoking no observer; and even a second discovery
of an already-stored token address under a different signature is dropped by
`_handle_new_pair` at the store-presence check before any observer call. -/
theorem discovery_idempotent (st : MonState) (fetch : String → Option TxData)
    (program_id : String) (program_ids : List String) (now : Int)
    (max_token_age_minutes : Nat) (callbacks : List Callback)
    (signature : String) (event : LogEvent) :
    signature ∈ (process_signature st fetch program_id now max_token_age_minutes
        callbacks signature).1.seen_signatures ∧
    (event.signature = some signature →
       signature ∈ (handle_log_event st fetch program_ids now max_token_age_minutes
          callbacks event).1.seen_signatures) ∧
    (signature ∈ st.seen_signatures →
       process_signature st fetch program_id now max_token_age_minutes callbacks signature
         = (st, []) ∧
       (event.signature = some signature →
          handle_log_event st fetch program_ids now max_token_age_minutes callbacks event
            = (st, []))) ∧
    (∀ pair : TokenPair, pair.token_address ∈ keysOf st.discovered_pairs →
       handle_new_pair st pair callbacks = (st, [])) := by
  refine ⟨?_, ?_, ?_, ?_⟩
  · by_cases hs : signature ∈ st.seen_signatures
    · simp [process_signature, hs]
    · simp only [process_signature, hs, if_false, if_neg, not_false_iff]
      cases hf : fetch signature with
      | none => simp
      | some tx =>
        cases hp : parse_transaction tx program_id signature now max_token_age_minutes with
        | none => simp [hp]
        | some pair => simp [hp, handle_new_pair_seen]
  · intro hev
    by_cases hs : signature ∈ st.seen_signatures
    · simp [handle_log_event, hev, hs]
    · simp only [handle_log_event, hev, hs, if_false, if_neg, not_false_iff]
      cases hf : fetch signature with
      | none => simp
      | some tx =>
        cases hp : program_ids.findSome?
            (fun pid => parse_transaction tx pid signature now max_token_age_minutes) with
        | none => simp [hp]
        | some pair => simp [hp, handle_new_pair_seen]
  · intro hs
    refine ⟨by simp [process_signature, hs], fun hev => ?_⟩
    simp [handle_log_event, hev, hs]
  · intro pair hmem
    simp [handle_new_pair, hmem]

/-- Witness for C1: with signature `"sigA"` already seen, both paths drop it
without touching the state; with `samplePair` already stored, a rediscovery
under a different signature is dropped before any observer call. -/
theorem discovery_idempotent_witness :
    process_signature ⟨[(samplePair.token_address, samplePair)], ["sigA"]⟩
        (fun _ => none) "prog" 0 60 [] "sigA"
      = (⟨[(samplePair.token_address, samplePair)], ["sigA"]⟩, []) ∧
    handle_log_event ⟨[(samplePair.token_address, samplePair)], ["sigA"]⟩
        (fun _ => none) ["prog"] 0 60 [] ⟨some "sigA"⟩
      = (⟨[(samplePair.token_address, samplePair)], ["sigA"]⟩, []) ∧
    handle_new_pair ⟨[(samplePair.token_address, samplePair)], ["sigA"]⟩
        { samplePair with signature := "sigB" } []
      = (⟨[(samplePair.token_address, samplePair)], ["sigA"]⟩, []) := by
  have h := discovery_idempotent ⟨[(samplePair.token_address, samplePair)], ["sigA"]⟩
    (fun _ => none) "prog" ["prog"] 0 60 [] "sigA" ⟨some "sigA"⟩
  have hs : "sigA" ∈ (⟨[(samplePair.token_address, samplePair)], ["sigA"]⟩ : MonState).seen_signatures := by
    simp
  refine ⟨(h.2.2.1 hs).1, (h.2.2.1 hs).2 rfl, ?_⟩
  exact h.2.2.2 { samplePair with signature := "sigB" } (by simp [keysOf])

/-! ## C3 -/

/-- C3: `get_active_pairs` returns exactly the stored pairs whose age is at
most the configured maximum (never one whose age exceeds it), and the returned
list never contains two entries with the same token address. -/
theorem get_active_pairs_spec (st : MonState) (now : Int) (max_token_age_minutes : Nat)
    (h : storeInv st) :
    (∀ p ∈ get_active_pairs st now max_token_age_minutes,
       age_minutes now p.created_at ≤ (max_token_age_minutes : ℚ)) ∧
    ((get_active_pairs st now max_token_age_minutes).map TokenPair.token_address).Nodup ∧
    (∀ p, p ∈ get_active_pairs st now max_token_age_minutes ↔
       p ∈ st.discovered_pairs.map Prod.snd ∧
         is_eligible p now max_token_age_minutes = true) := by
  obtain ⟨hnd, hkey⟩ := h
  refine ⟨?_, ?_, ?_⟩
  · intro p hp
    have hmem := (List.mem_filter.mp hp).2
    simpa [is_eligible] using hmem
  · have hsub : List.Sublist (get_active_pairs st now max_token_age_minutes)
        (st.discovered_pairs.map Prod.snd) := List.filter_sublist _
    have hmap := hsub.map TokenPair.token_address
    have heq : (st.discovered_pairs.map Prod.snd).map TokenPair.token_address
        = keysOf st.discovered_pairs := by
      rw [List.map_map]
      exact List.map_congr_left (fun kp hkp => hkey kp hkp)
    rw [heq] at hmap
    exact hmap.nodup hnd
  · intro p
    simp [get_active_pairs, List.mem_filter]

/-- A second sample pair, created later than `samplePair`. -/
def samplePairFresh : TokenPair :=
  { samplePair with
    token_address := "FRSHFRSHFRSHFRSHFRSHFRSHFRSHFRSHFRS",
    base_token := "FRSHFRSHFRSHFRSHFRSHFRSHFRSHFRSHFRS",
    created_at := 9000,
    signature := "sigB" }

/-- A concrete store holding `samplePair` (created at 0) and `samplePairFresh`
(created at 9000). -/
def storeSample : MonState :=
  ⟨[(samplePair.token_address, samplePair),
    (samplePairFresh.token_address, samplePairFresh)], []⟩

/-- Witness for C3 at `now = 7200` (so `samplePair` is 120 minutes old): the
aged pair is excluded and the returned token addresses are duplicate-free. -/
theorem get_active_pairs_spec_witness :
    samplePair ∉ get_active_pairs storeSample 7200 60 ∧
    ((get_active_pairs storeSample 7200 60).map TokenPair.token_address).Nodup := by
  have h := get_active_pairs_spec storeSample 7200 60 (by constructor <;> decide)
  refine ⟨fun hmem => ?_, h.2.1⟩
  exact absurd ((h.2.2 samplePair).mp hmem).2
    (by norm_num [is_eligible, age_minutes, samplePair])

/-! ## C4 -/

/-- C4: one cleanup sweep keeps exactly the stored pairs whose age is at most
twice the configured maximum: every pair created strictly before
`now - 2 * max_token_age_minutes` (in minutes) is evicted and every other pair
remains. -/
theorem cleanup_removes_exactly_double_aged (st : MonState) (now : Int)
    (max_token_age_minutes : Nat) (h : storeInv st) :
    ∀ kp, kp ∈ (cleanup_old_pairs st now max_token_age_minutes).discovered_pairs ↔
      (kp ∈ st.discovered_pairs ∧
       age_minutes now kp.2.created_at ≤ 2 * (max_token_age_minutes : ℚ)) := by
  obtain ⟨hnd, _⟩ := h
  intro kp
  simp only [cleanup_old_pairs]
  set cutoff : Int := now - ((max_token_age_minutes * 2 : Nat) : Int) * 60 with hcut
  have key : ∀ c : Int,
      (age_minutes now c ≤ 2 * (max_token_age_minutes : ℚ)) ↔ cutoff ≤ c := by
    intro c
    rw [age_minutes, div_le_iff₀ (by norm_num : (0:ℚ) < 60),
      show (2 * (max_token_age_minutes : ℚ)) * 60
          = ((2 * (max_token_age_minutes : ℤ) * 60 : ℤ) : ℚ) by push_cast; ring,
      Int.cast_le]
    omega
  have hold : ∀ kp', kp' ∈ st.discovered_pairs →
      (kp'.1 ∈ keysOf (st.discovered_pairs.filter
          (fun kq => decide (kq.2.created_at < cutoff)))
        ↔ kp'.2.created_at < cutoff) := by
    intro kp' hkp'
    constructor
    · intro hin
      obtain ⟨kq, hkq, hfst⟩ := List.mem_map.mp hin
      have hkqmem := List.mem_of_mem_filter hkq
      have hkqeq : kq = kp' := List.inj_on_of_nodup_map hnd hkqmem hkp' hfst
      subst hkqeq
      simpa using List.of_mem_filter hkq
    · intro hlt
      exact List.mem_map.mpr
        ⟨kp', List.mem_filter.mpr ⟨hkp', by simpa using hlt⟩, rfl⟩
  rw [List.mem_filter]
  constructor
  · rintro ⟨hmem, hnotold⟩
    refine ⟨hmem, ?_⟩
    rw [key]
    by_contra hle
    have hlt : kp.2.created_at < cutoff := by omega
    have hin := (hold kp hmem).mpr hlt
    simp only [decide_eq_true_eq] at hnotold
    exact hnotold hin
  · rintro ⟨hmem, hage⟩
    refine ⟨hmem, ?_⟩
    rw [key] at hage
    simp only [decide_eq_true_eq]
    intro hin
    have hlt := (hold kp hmem).mp hin
    omega

/-- Witness for C4 at `now = 10000` with maximum age 60 minutes (cutoff 2800):
the pair created at 0 is evicted, the pair created at 9000 remains. -/
theorem cleanup_removes_exactly_double_aged_witness :
    (samplePair.token_address, samplePair)
      ∉ (cleanup_old_pairs storeSample 10000 60).discovered_pairs ∧
    (samplePairFresh.token_address, samplePairFresh)
      ∈ (cleanup_old_pairs storeSample 10000 60).discovered_pairs := by
  have h := cleanup_removes_exactly_double_aged storeSample 10000 60
    (by constructor <;> decide)
  constructor
  · intro hmem
    exact absurd ((h _).mp hmem).2 (by norm_num [age_minutes, samplePair])
  · exact (h _).mpr ⟨by decide, by norm_num [age_minutes, samplePairFresh, samplePair]⟩

/-! ## Resubscription lemmas -/

/-- One resubscription step appends the copied entry under the current counter
value and bumps the counter; the reconnect counter is untouched. -/
theorem resubscribe_step_spec (acc : WSState) (kv : Nat × SubEntry) :
    (resubscribe_step acc kv).subscriptions
      = acc.subscriptions ++ [(acc.subscription_id_counter, kv.2)] ∧
    (resubscribe_step acc kv).subscription_id_counter
      = acc.subscription_id_counter + 1 ∧
    (resubscribe_step acc kv).reconnect_attempts = acc.reconnect_attempts := by
  cases h : kv.2 <;> simp [resubscribe_step, h, subscribe_logs, subscribe_account]

/-- The resubscription fold re-creates every copied entry in order under fresh
consecutive ids starting at the accumulator's counter. -/
theorem resubscribe_fold_spec (l : List (Nat × SubEntry)) : ∀ acc : WSState,
    (l.foldl resubscribe_step acc).subscriptions.map Prod.snd
      = acc.subscriptions.map Prod.snd ++ l.map Prod.snd ∧
    (l.foldl resubscribe_step acc).subscription_id_counter
      = acc.subscription_id_counter + l.length ∧
    natKeys (l.foldl resubscribe_step acc).subscriptions
      = natKeys acc.subscriptions ++ List.range' acc.subscription_id_counter l.length ∧
    (l.foldl resubscribe_step acc).reconnect_attempts = acc.reconnect_attempts := by
  induction l with
  | nil => intro acc; simp
  | cons kv rest ih =>
    intro acc
    obtain ⟨he, hc, ha⟩ := resubscribe_step_spec acc kv
    obtain ⟨ih1, ih2, ih3, ih4⟩ := ih (resubscribe_step acc kv)
    refine ⟨?_, ?_, ?_, ?_⟩
    · rw [List.foldl_cons, ih1, he]
      simp
    · rw [List.foldl_cons, ih2, hc, List.length_cons]
      omega
    · rw [List.foldl_cons, ih3, hc, List.length_cons, List.range'_succ]
      simp only [natKeys, he, List.map_append, List.map_cons, List.map_nil]
      simp [natKeys]
    · rw [List.foldl_cons, ih4, ha]

/-- The operation `_resubscribe_all` preserves every (filter, handler) entry in order,
issues the fresh ids `counter, counter+1, ...` for them, and leaves the
reconnect counter unchanged. -/
theorem resubscribe_all_spec (st : WSState) :
    (resubscribe_all st).subscriptions.map Prod.snd
      = st.subscriptions.map Prod.snd ∧
    natKeys (resubscribe_all st).subscriptions
      = List.range' st.subscription_id_counter st.subscriptions.length ∧
    (resubscribe_all st).subscription_id_counter
      = st.subscription_id_counter + st.subscriptions.length ∧
    (resubscribe_all st).reconnect_attempts = st.reconnect_attempts := by
  obtain ⟨h1, h2, h3, h4⟩ :=
    resubscribe_fold_spec st.subscriptions { st with subscriptions := [], callbacks := [] }
  refine ⟨?_, ?_, ?_, ?_⟩
  · rw [resubscribe_all]; rw [h1]; simp
  · rw [resubscribe_all]; rw [h3]; simp [natKeys]
  · rw [resubscribe_all]; rw [h2]
  · rw [resubscribe_all]; rw [h4]

/-! ## C7 -/

/-- C7: subscription ids are unique and strictly increasing — under the
invariant that every issued id is below the counter, `subscribe_logs` returns
an id that is fresh (not in the table) and strictly greater than every
previously issued id, and re-establishes the invariant — and after a
reconnect, `_resubscribe_all` re-registers exactly the previous
(filter, handler) entries, in order, each under a fresh id no smaller than the
counter (so ids do not survive the reconnect but the pairing does). -/
theorem subscription_id_freshness (st : WSState) (program_ids : List String)
    (callback : Nat)
    (h : ∀ id ∈ natKeys st.subscriptions, id < st.subscription_id_counter) :
    ((subscribe_logs st program_ids callback).1 ∉ natKeys st.subscriptions ∧
     (∀ id ∈ natKeys st.subscriptions, id < (subscribe_logs st program_ids callback).1) ∧
     (∀ id ∈ natKeys (subscribe_logs st program_ids callback).2.subscriptions,
        id < (subscribe_logs st program_ids callback).2.subscription_id_counter)) ∧
    ((resubscribe_all st).subscriptions.map Prod.snd
       = st.subscriptions.map Prod.snd ∧
     (∀ id ∈ natKeys (resubscribe_all st).subscriptions,
        st.subscription_id_counter ≤ id)) := by
  refine ⟨⟨?_, ?_, ?_⟩, ?_, ?_⟩
  · intro hmem
    exact absurd (h _ hmem) (by simp [subscribe_logs])
  · intro id hid
    simpa [subscribe_logs] using h id hid
  · intro id hid
    simp only [subscribe_logs, natKeys, List.map_append, List.map_cons, List.map_nil,
      List.mem_append, List.mem_cons, List.not_mem_nil, or_false] at hid ⊢
    rcases hid with hid | hid
    · have := h id hid
      omega
    · omega
  · exact (resubscribe_all_spec st).1
  · intro id hid
    rw [(resubscribe_all_spec st).2.1] at hid
    have := List.mem_range'_1.mp hid
    omega

/-- Witness for C7: starting from the initialized manager with one logs
subscription, a further subscribe issues a fresh id and resubscription
preserves the entry list. -/
theorem subscription_id_freshness_witness :
    (subscribe_logs (subscribe_logs WSState.init ["p"] 0).2 ["q"] 1).1
      ∉ natKeys (subscribe_logs WSState.init ["p"] 0).2.subscriptions ∧
    (resubscribe_all (subscribe_logs WSState.init ["p"] 0).2).subscriptions.map Prod.snd
      = (subscribe_logs WSState.init ["p"] 0).2.subscriptions.map Prod.snd := by
  have h := subscription_id_freshness (subscribe_logs WSState.init ["p"] 0).2 ["q"] 1
    (by decide)
  exact ⟨h.1.1, h.2.1⟩

/-! ## C5 -/

/-- Trace and outcome of the listen loop under a burst of `n` consecutive
transport failures whose reconnects do not establish a connection (`connect`
returns without connecting): the sleeps follow `2 ^ attempt` for consecutive
attempt numbers, and the loop survives exactly as long as the attempt budget
lasts. -/
theorem listen_noop_burst (n : Nat) : ∀ st : WSState,
    st.reconnect_attempts ≤ max_reconnect_attempts →
    sleepsOf (listen st (List.replicate n (WsEvent.wsError ConnectOutcome.noop))).2.2
      = (List.range' (st.reconnect_attempts + 1)
          (min n (max_reconnect_attempts - st.reconnect_attempts))).map (fun k => 2 ^ k) ∧
    (listen st (List.replicate n (WsEvent.wsError ConnectOutcome.noop))).1
      = (if n ≤ max_reconnect_attempts - st.reconnect_attempts then ListenResult.stopped
         else ListenResult.maxAttemptsReached) := by
  induction n with
  | zero =>
    intro st hst
    simp [listen, sleepsOf]
  | succ n ih =>
    intro st hst
    by_cases hlt : st.reconnect_attempts < max_reconnect_attempts
    · have hattempts :=
        (resubscribe_all_spec { st with reconnect_attempts := st.reconnect_attempts + 1 }).2.2.2
      obtain ⟨ih1, ih2⟩ :=
        ih (resubscribe_all { st with reconnect_attempts := st.reconnect_attempts + 1 })
          (by rw [hattempts]
              show st.reconnect_attempts + 1 ≤ max_reconnect_attempts
              omega)
      rw [hattempts] at ih1 ih2
      have harith : min (n + 1) (max_reconnect_attempts - st.reconnect_attempts)
          = (min n (max_reconnect_attempts - (st.reconnect_attempts + 1))) + 1 := by
        omega
      constructor
      · simp only [List.replicate_succ, listen, hlt, if_true]
        rw [harith, List.range'_succ]
        simp only [List.map_cons, sleepsOf]
        rw [ih1]
      · simp only [List.replicate_succ, listen, hlt, if_true]
        rw [ih2]
        have hiff : (n ≤ max_reconnect_attempts - (st.reconnect_attempts + 1))
            ↔ (n + 1 ≤ max_reconnect_attempts - st.reconnect_attempts) := by
          omega
        by_cases hn : n ≤ max_reconnect_attempts - (st.reconnect_attempts + 1)
        · rw [if_pos hn, if_pos (hiff.mp hn)]
        · rw [if_neg hn, if_neg (fun hc => hn (hiff.mpr hc))]
    · have hz : max_reconnect_attempts - st.reconnect_attempts = 0 := by omega
      simp [List.replicate_succ, listen, hlt, hz, sleepsOf]

/-- C5: on transport failure the listen loop reconnects with backoff
`2 ^ attempt` for attempt = 1, 2, ... up to the fixed maximum of
`max_reconnect_attempts` (10) consecutive attempts, and once the budget is
exhausted it terminates with the logged fatal condition instead of retrying
forever; each successful reconnect re-establishes all previously active
subscriptions (same (filter, handler) entries, fresh ids) right after the
backoff sleep. -/
theorem listen_backoff_and_termination (st : WSState) (n : Nat)
    (h : st.reconnect_attempts = 0) :
    (sleepsOf (listen st (List.replicate n (WsEvent.wsError ConnectOutcome.noop))).2.2
       = (List.range' 1 (min n max_reconnect_attempts)).map (fun k => 2 ^ k)) ∧
    ((listen st (List.replicate n (WsEvent.wsError ConnectOutcome.noop))).1
       = (if n ≤ max_reconnect_attempts then ListenResult.stopped
          else ListenResult.maxAttemptsReached)) ∧
    ((listen st [WsEvent.wsError ConnectOutcome.ok]).2.2
       = [TraceItem.sleep 2,
          TraceItem.resubscribed (st.subscriptions.map Prod.snd)]) ∧
    ((listen st [WsEvent.wsError ConnectOutcome.ok]).2.1.subscriptions.map Prod.snd
       = st.subscriptions.map Prod.snd) := by
  have hb := listen_noop_burst n st (by rw [h]; exact Nat.zero_le _)
  rw [h] at hb
  have hlt : (0 : Nat) < max_reconnect_attempts := by
    simp [max_reconnect_attempts]
  refine ⟨by simpa using hb.1, by simpa using hb.2, ?_, ?_⟩
  · simp [listen, h, max_reconnect_attempts]
  · have hpres :=
      (resubscribe_all_spec { st with reconnect_attempts := 0 }).1
    simp only [listen, h, max_reconnect_attempts]
    norm_num
    simpa using hpres

/-- Witness for C5: twelve consecutive failed reconnects from a fresh manager
sleep exactly 2, 4, ..., 1024 time-units and end in the max-attempts fatal
outcome. -/
theorem listen_backoff_and_termination_witness :
    sleepsOf (listen WSState.init
        (List.replicate 12 (WsEvent.wsError ConnectOutcome.noop))).2.2
      = [2, 4, 8, 16, 32, 64, 128, 256, 512, 1024] ∧
    (listen WSState.init
        (List.replicate 12 (WsEvent.wsError ConnectOutcome.noop))).1
      = ListenResult.maxAttemptsReached := by
  have h := listen_backoff_and_termination WSState.init 12 rfl
  exact ⟨h.1.trans (by decide), (h.2.1).trans (by decide)⟩

/-! ## C2 -/

/-- Complete case analysis of one `_make_request` call: it makes 1, 2 or 3
attempts, sleeping `wait_exponential` of the failed attempt number between
attempts, retrying only on network/timeout errors, re-raising a non-retryable
error immediately, and surfacing the last retryable error as retry exhaustion
after the third attempt. -/
theorem make_request_cases (p : Nat → AttemptResult) :
    (∃ v, p 1 = AttemptResult.ok v ∧ make_request p = (Except.ok v, ⟨1, []⟩)) ∨
    (∃ e, p 1 = AttemptResult.appErr e ∧
       make_request p = (Except.error (ReqErr.nonRetryable e), ⟨1, []⟩)) ∨
    (∃ e v, p 1 = AttemptResult.netErr e ∧ p 2 = AttemptResult.ok v ∧
       make_request p = (Except.ok v, ⟨2, [wait_exponential 1]⟩)) ∨
    (∃ e e2, p 1 = AttemptResult.netErr e ∧ p 2 = AttemptResult.appErr e2 ∧
       make_request p = (Except.error (ReqErr.nonRetryable e2), ⟨2, [wait_exponential 1]⟩)) ∨
    (∃ e e2 v, p 1 = AttemptResult.netErr e ∧ p 2 = AttemptResult.netErr e2 ∧
       p 3 = AttemptResult.ok v ∧
       make_request p = (Except.ok v, ⟨3, [wait_exponential 1, wait_exponential 2]⟩)) ∨
    (∃ e e2 e3, p 1 = AttemptResult.netErr e ∧ p 2 = AttemptResult.netErr e2 ∧
       p 3 = AttemptResult.appErr e3 ∧
       make_request p = (Except.error (ReqErr.nonRetryable e3),
         ⟨3, [wait_exponential 1, wait_exponential 2]⟩)) ∨
    (∃ e e2 e3, p 1 = AttemptResult.netErr e ∧ p 2 = AttemptResult.netErr e2 ∧
       p 3 = AttemptResult.netErr e3 ∧
       make_request p = (Except.error (ReqErr.retryExhausted e3),
         ⟨3, [wait_exponential 1, wait_exponential 2]⟩)) := by
  rcases h1 : p 1 with v | e | e
  · exact Or.inl ⟨v, rfl, by simp [make_request, make_request_go, stop_after_attempt_n, h1]⟩
  · rcases h2 : p 2 with v | e2 | e2
    · exact Or.inr (Or.inr (Or.inl ⟨e, v, rfl, rfl,
        by simp [make_request, make_request_go, stop_after_attempt_n, h1, h2]⟩))
    · rcases h3 : p 3 with v | e3 | e3
      · exact Or.inr (Or.inr (Or.inr (Or.inr (Or.inl ⟨e, e2, v, rfl, rfl, rfl,
          by simp [make_request, make_request_go, stop_after_attempt_n, h1, h2, h3]⟩))))
      · exact Or.inr (Or.inr (Or.inr (Or.inr (Or.inr (Or.inr ⟨e, e2, e3, rfl, rfl, rfl,
          by simp [make_request, make_request_go, stop_after_attempt_n, h1, h2, h3]⟩)))))
      · exact Or.inr (Or.inr (Or.inr (Or.inr (Or.inr (Or.inl ⟨e, e2, e3, rfl, rfl, rfl,
          by simp [make_request, make_request_go, stop_after_attempt_n, h1, h2, h3]⟩)))))
    · exact Or.inr (Or.inr (Or.inr (Or.inl ⟨e, e2, rfl, rfl,
        by simp [make_request, make_request_go, stop_after_attempt_n, h1, h2]⟩)))
  · exact Or.inr (Or.inl ⟨e, rfl,
      by simp [make_request, make_request_go, stop_after_attempt_n, h1]⟩)

/-- Counterexample to C2 as stated: with a primary endpoint failing
non-retryably (e.g. an auth error) on its very first attempt and a configured
backup that answers, `get_token_supply` attempts the backup after only one
primary attempt — the primary was not "exhausted" (1 of 3 attempts) and the
failure was not a network/timeout error, yet no error propagates and no
`ProviderUnavailable` is involved: the backup's success is returned.  (No
`ProviderUnavailable` error type exists anywhere in the source; on double
failure the last underlying error is what propagates.) -/
theorem backup_tried_without_primary_exhaustion :
    (get_token_supply (fun _ => AttemptResult.appErr 7)
        (some (fun _ => AttemptResult.ok 42))).2.backupAttempted = true ∧
    (get_token_supply (fun _ => AttemptResult.appErr 7)
        (some (fun _ => AttemptResult.ok 42))).2.primaryTrace.attempts = 1 ∧
    (get_token_supply (fun _ => AttemptResult.appErr 7)
        (some (fun _ => AttemptResult.ok 42))).1 = Except.ok 42 :=
  ⟨rfl, rfl, rfl⟩

/-- C2 amended: for a wrapper routed through `_make_request` (here
`get_token_supply`), each endpoint call makes at most 3 attempts with
exponential backoff starting at 2 time-units and capped at 10, retrying only
network/timeout errors (a non-retryable failure ends the endpoint's attempts
immediately); the backup endpoint — under the same retry policy — is attempted
exactly when the primary call failed for any reason and a backup is
configured; and when the backup also fails (or none is configured) the last
underlying error propagates to the caller (there is no dedicated
`ProviderUnavailable` error type). -/
theorem retry_failover_spec (p : Nat → AttemptResult)
    (b : Option (Nat → AttemptResult)) :
    (1 ≤ (make_request p).2.attempts ∧
       (make_request p).2.attempts ≤ stop_after_attempt_n) ∧
    ((make_request p).2.sleeps
       = (List.range' 1 ((make_request p).2.attempts - 1)).map wait_exponential) ∧
    (wait_exponential 1 = 2 ∧ ∀ k, wait_exponential k ≤ 10) ∧
    (∀ e, p 1 = AttemptResult.appErr e →
       make_request p = (Except.error (ReqErr.nonRetryable e), ⟨1, []⟩)) ∧
    ((get_token_supply p b).2.backupAttempted = true ↔
       (b.isSome = true ∧ ∃ e, (make_request p).1 = Except.error e)) ∧
    (∀ bb, b = some bb → (∃ e, (make_request p).1 = Except.error e) →
       (get_token_supply p b).1 = (make_request bb).1) ∧
    (b = none → (get_token_supply p b).1 = (make_request p).1) := by
  have hsupply : ∀ r t, make_request p = (r, t) →
      get_token_supply p b
        = (match r, b with
           | Except.ok v, _ => (Except.ok v, ⟨t, false, ⟨0, []⟩⟩)
           | Except.error _, some bb =>
             ((make_request bb).1, ⟨t, true, (make_request bb).2⟩)
           | Except.error e, none => (Except.error e, ⟨t, false, ⟨0, []⟩⟩)) := by
    intro r t hm
    cases r with
    | ok v => simp [get_token_supply, hm]
    | error e =>
      cases b with
      | none => simp [get_token_supply, hm]
      | some bb => simp [get_token_supply, hm]
  rcases make_request_cases p with
    ⟨v, h1, heq⟩ | ⟨e, h1, heq⟩ | ⟨e, v, h1, h2, heq⟩ | ⟨e, e2, h1, h2, heq⟩ |
    ⟨e, e2, v, h1, h2, h3, heq⟩ | ⟨e, e2, e3, h1, h2, h3, heq⟩ |
    ⟨e, e2, e3, h1, h2, h3, heq⟩ <;>
  · have hs := hsupply _ _ heq
    refine ⟨?_, ?_, ⟨by decide, fun k => ?_⟩, ?_, ?_, ?_, ?_⟩
    · rw [heq]; exact ⟨by norm_num, by norm_num [stop_after_attempt_n]⟩
    · rw [heq]; simp [List.range'_succ]
    · simp only [wait_exponential]
      exact max_le (by norm_num) (min_le_right _ _)
    · intro e' h1'
      rw [h1] at h1'
      cases h1' <;> exact heq
    · rw [hs, heq]
      cases b <;> simp
    · intro bb hb herr
      subst hb
      rw [heq] at herr
      obtain ⟨e', he'⟩ := herr
      cases he' <;> rw [hs]
    · intro hb
      subst hb
      rw [hs, heq]

/-- Witness for C2 amended: a non-retryable failure ends the primary after one
attempt, and with no backup configured the primary's error is what the caller
sees. -/
theorem retry_failover_spec_witness :
    make_request (fun _ => AttemptResult.appErr 5)
      = (Except.error (ReqErr.nonRetryable 5), ⟨1, []⟩) ∧
    (get_token_supply (fun _ => AttemptResult.netErr 9) none).1
      = (make_request (fun _ => AttemptResult.netErr 9)).1 := by
  refine ⟨(retry_failover_spec (fun _ => AttemptResult.appErr 5) none).2.2.2.1 5 rfl, ?_⟩
  exact (retry_failover_spec (fun _ => AttemptResult.netErr 9) none).2.2.2.2.2.2 rfl

/-! ## C9 -/

/-- A one-object heap holding `samplePair` at address 0. -/
def sampleHeap : Heap := [(0, samplePair)]

/-- A store whose single entry references address 0. -/
def sampleRefStore : RefStore := ⟨[(samplePair.token_address, 0)]⟩

/-- The pair `samplePair` after a caller mutates its pool metadata map in place. -/
def mutatedPair : TokenPair := { samplePair with pool_info := [("liquidity", "0")] }

/-- Mutating the object behind an address that `heapGet` resolves is visible
through that same address afterwards. -/
theorem heapGet_heapSet (h : Heap) (r : Nat) (p p' : TokenPair)
    (hg : heapGet h r = some p) : heapGet (heapSet h r p') r = some p' := by
  induction h with
  | nil => simp [heapGet] at hg
  | cons kv t ih =>
    by_cases hk : (kv.1 == r) = true
    · simp [heapGet, heapSet, List.find?, hk]
    · simp only [heapGet, heapSet, List.map_cons, List.find?] at hg ⊢
      rw [Bool.not_eq_true] at hk
      simp only [hk, if_false, Bool.false_eq_true, cond_false] at hg ⊢
      exact ih hg

/-- Counterexample to C9 as stated: the list `get_active_pairs` returns is
fresh, but its elements are the store's own mutable `TokenPair` objects.  At a
concrete one-pair store the returned snapshot contains exactly the reference
held by the store, and mutating the pool metadata through it changes the
object the store sees — contradicting "no object reachable from the returned
list is the same mutable object held in the store". -/
theorem get_active_pairs_aliasing_counterexample :
    get_active_pairs_refs sampleHeap sampleRefStore 0 60 = [0] ∧
    0 ∈ sampleRefStore.entries.map Prod.snd ∧
    heapGet (heapSet sampleHeap 0 mutatedPair) 0 = some mutatedPair ∧
    mutatedPair ≠ samplePair := by
  refine ⟨?_, by decide, by decide, by decide⟩
  simp only [get_active_pairs_refs, sampleRefStore, sampleHeap, heapGet,
    List.filterMap, List.find?, samplePair]
  norm_num [is_eligible, age_minutes, samplePair]

/-- C9 corrected: every reference in the returned snapshot is one of the
store's own object references (resolving to an eligible pair), and writing
through such a reference (e.g. mutating the pool metadata map) is visible at
that same reference afterwards — the snapshot is a fresh list, but its
elements live-alias the store's pair objects. -/
theorem get_active_pairs_alias_spec (h : Heap) (store : RefStore) (now : Int)
    (max_token_age_minutes : Nat) (r : Nat)
    (hr : r ∈ get_active_pairs_refs h store now max_token_age_minutes) :
    r ∈ store.entries.map Prod.snd ∧
    (∃ p, heapGet h r = some p ∧ is_eligible p now max_token_age_minutes = true) ∧
    (∀ p', heapGet (heapSet h r p') r = some p') := by
  obtain ⟨kv, hkv, hmatch⟩ := List.mem_filterMap.mp hr
  rcases hg : heapGet h kv.2 with _ | p
  · rw [hg] at hmatch
    simp at hmatch
  · rw [hg] at hmatch
    by_cases he : is_eligible p now max_token_age_minutes = true
    · simp only [he, if_true] at hmatch
      have hr2 : kv.2 = r := by
        injection hmatch
      subst hr2
      refine ⟨List.mem_map.mpr ⟨kv, hkv, rfl⟩, ⟨p, hg, he⟩, ?_⟩
      intro p'
      exact heapGet_heapSet h kv.2 p p' hg
    · rw [Bool.not_eq_true] at he
      simp [he] at hmatch

/-- Witness for C9 corrected, at the concrete one-pair store. -/
theorem get_active_pairs_alias_spec_witness :
    0 ∈ sampleRefStore.entries.map Prod.snd ∧
    heapGet (heapSet sampleHeap 0 mutatedPair) 0 = some mutatedPair := by
  have h := get_active_pairs_alias_spec sampleHeap sampleRefStore 0 60 0
    (by
      have : get_active_pairs_refs sampleHeap sampleRefStore 0 60 = [0] := by
        simp only [get_active_pairs_refs, sampleRefStore, sampleHeap, heapGet,
          List.filterMap, List.find?, samplePair]
        norm_num [is_eligible, age_minutes, samplePair]
      rw [this]
      exact List.mem_singleton.mpr rfl)
  exact ⟨h.1, h.2.2 mutatedPair⟩

end MoonScanner
